import Mathlib

/-!
Shallow embedding of the resident-directory backend
(`src/api_backend/src/api/...`): configuration, password hashing, JWT
issue/verify (`core/security.py`), the auth endpoints (`routers/auth.py`),
the auth dependencies (`deps/auth.py`) and the resident endpoints
(`routers/residents.py`).

Modelling conventions:
 - time is a UNIX timestamp in whole seconds (`Int`); `_utcnow()` becomes an
   explicit `now` parameter;
 - UUIDs are `Nat`; the JWT `sub` claim is `Option Nat`, where `none` stands
   for an absent, empty or non-UUID subject string (all of which the code
   treats identically);
 - a JWT is its decoded payload together with the key it was signed with;
   HS256 signing is deterministic, so two tokens are the same string exactly
   when payload and key coincide, which structural equality captures;
 - bcrypt hashing is modelled by an injective tag (salting is immaterial to
   the verified properties: only `verify_password p (hash_password p) = true`
   and the possibility of mismatch matter);
 - the database tables are Lean lists; `db.commit()` of a pending
   INSERT whose primary key already exists fails the transaction
   (the unique/PK constraints of `models/*.py`).  Within one flush
   SQLAlchemy emits INSERTs before DELETEs, so a same-key delete+insert
   conflicts against the pre-flush table;
 - `scalar_one_or_none` errors (HTTP 500) when more than one row matches;
 - FastAPI/pydantic request validation (`schemas/auth.py`,
   `Query(ge=..., le=...)`) rejects out-of-range input with HTTP 422
   before the handler runs; this layer is modelled explicitly where a claim
   depends on it.  `EmailStr` format checking is orthogonal to every claim
   and not modelled.
-/

namespace ResidentDirectory

/-- Outcome values are compared concretely in witnesses; `Except` has no
`DecidableEq` instance in core. -/
instance {ε α : Type} [DecidableEq ε] [DecidableEq α] : DecidableEq (Except ε α) :=
  fun a b =>
    match a, b with
    | .ok x, .ok y =>
      if h : x = y then .isTrue (by rw [h]) else .isFalse (by simp [h])
    | .error x, .error y =>
      if h : x = y then .isTrue (by rw [h]) else .isFalse (by simp [h])
    | .ok _, .error _ => .isFalse (by simp)
    | .error _, .ok _ => .isFalse (by simp)

/-- Runtime settings (`core/config.py`, class `Settings`). Only the auth
fields are relevant to the verified properties. -/
structure Settings where
  jwt_issuer : String
  jwt_audience : String
  access_token_expires_minutes : Nat
  refresh_token_expires_days : Nat
  jwt_secret_key : String
deriving DecidableEq, Repr

/-- The dataclass defaults of `core/config.py` (`JWT_SECRET_KEY` comes from
the environment; the TTLs default to 30 minutes / 30 days). -/
def defaultSettings : Settings :=
  { jwt_issuer := "resident-directory"
    jwt_audience := "resident-directory-frontend"
    access_token_expires_minutes := 30
    refresh_token_expires_days := 30
    jwt_secret_key := "test-secret" }

/-- `models/user.py`, `UserRole`. -/
inductive UserRole where
  | admin
  | user
deriving DecidableEq, Repr

/-- `models/user.py`, `User` row. -/
structure User where
  id : Nat
  email : String
  password_hash : String
  role : UserRole
  created_at : Int
deriving DecidableEq, Repr

/-- `core/security.py`, `hash_password` (bcrypt, modelled injectively). -/
def hash_password (password : String) : String :=
  "bcrypt$" ++ password

/-- `core/security.py`, `verify_password`. -/
def verify_password (plain_password : String) (password_hash : String) : Bool :=
  hash_password plain_password == password_hash

/-- Decoded JWT claim set (`core/security.py` payload dicts).
`role` is `none` on refresh tokens, which carry no role claim. -/
structure JwtPayload where
  iss : String
  aud : String
  sub : Option Nat
  role : Option UserRole
  typ : String
  iat : Int
  exp : Int
deriving DecidableEq, Repr

/-- A signed token: payload plus signing key (HS256 is deterministic, so
this is a faithful model of the encoded string). -/
structure Jwt where
  payload : JwtPayload
  key : String
deriving DecidableEq, Repr

/-- Failure causes inside `jwt.decode` (PyJWT). The code collapses them
before they reach any client. -/
inductive JwtError where
  | invalidSignature
  | expired
  | audienceMismatch
  | issuerMismatch
deriving DecidableEq, Repr

/-- `core/security.py`, `decode_token`: `jwt.decode` checks the signature,
expiry (`exp ≤ now` is expired), audience and issuer. -/
def decode_token (cfg : Settings) (now : Int) (t : Jwt) : Except JwtError JwtPayload :=
  if t.key ≠ cfg.jwt_secret_key then .error .invalidSignature
  else if t.payload.exp ≤ now then .error .expired
  else if t.payload.aud ≠ cfg.jwt_audience then .error .audienceMismatch
  else if t.payload.iss ≠ cfg.jwt_issuer then .error .issuerMismatch
  else .ok t.payload

/-- `core/security.py`, `create_access_token`: returns
`(token, expires_in_seconds)` with `exp = now + expires_in`. -/
def create_access_token (cfg : Settings) (now : Int) (subject : Nat) (role : UserRole) :
    Jwt × Int :=
  let expires_in : Int := (cfg.access_token_expires_minutes : Int) * 60
  let exp := now + expires_in
  (⟨⟨cfg.jwt_issuer, cfg.jwt_audience, some subject, some role, "access", now, exp⟩,
    cfg.jwt_secret_key⟩, expires_in)

/-- `core/security.py`, `create_refresh_token`: returns
`(token, expires_at)` with a TTL of `refresh_token_expires_days` days. -/
def create_refresh_token (cfg : Settings) (now : Int) (subject : Nat) : Jwt × Int :=
  let expires_at := now + (cfg.refresh_token_expires_days : Int) * 86400
  (⟨⟨cfg.jwt_issuer, cfg.jwt_audience, some subject, none, "refresh", now, expires_at⟩,
    cfg.jwt_secret_key⟩, expires_at)

/-- `models/refresh_token.py`, `RefreshToken` row; primary key is
`(user_id, token)`. -/
structure RefreshTokenRow where
  user_id : Nat
  token : Jwt
  expires_at : Int
  created_at : Int
deriving DecidableEq, Repr

/-- The auth-relevant database state: the `users` and `refresh_tokens`
tables. -/
structure AuthDb where
  users : List User
  refresh_tokens : List RefreshTokenRow
deriving DecidableEq, Repr

/-- The HTTP error taxonomy produced by the handlers (plus the generic 500
that an integrity / multiple-rows error surfaces as). -/
inductive HttpError where
  | validation (detail : String)
  | requestValidation
  | conflict (detail : String)
  | unauthorized (detail : String)
  | forbidden (detail : String)
  | notFound (detail : String)
  | internal
deriving DecidableEq, Repr

/-- Status code of each error (FastAPI maps request-validation failures to
422 Unprocessable Entity). -/
def HttpError.status : HttpError → Nat
  | .validation _ => 400
  | .requestValidation => 422
  | .conflict _ => 409
  | .unauthorized _ => 401
  | .forbidden _ => 403
  | .notFound _ => 404
  | .internal => 500

/-- SQLAlchemy `scalar_one_or_none`: `none` on zero rows, the row on one,
`MultipleResultsFound` (an unhandled 500) on several. -/
def scalarOneOrNone {α : Type} (rows : List α) : Except Unit (Option α) :=
  match rows with
  | [] => .ok none
  | [x] => .ok (some x)
  | _ :: _ :: _ => .error ()

/-- A pending INSERT into `refresh_tokens` conflicts when its
`(user_id, token)` primary key is already present. -/
def pkPresent (rows : List RefreshTokenRow) (uid : Nat) (tok : Jwt) : Bool :=
  rows.any (fun r => r.user_id == uid && r.token == tok)

/-- `schemas/auth.py`, `UserPublic` / `routers/auth.py`, `_to_user_public`. -/
structure UserPublic where
  id : Nat
  email : String
  role : UserRole
  created_at : Int
deriving DecidableEq, Repr

def toUserPublic (u : User) : UserPublic :=
  ⟨u.id, u.email, u.role, u.created_at⟩

/-- `schemas/auth.py`, `TokenResponse`. -/
structure TokenResponse where
  access_token : Jwt
  refresh_token : Jwt
  token_type : String
  expires_in : Int
  user : UserPublic
deriving DecidableEq, Repr

/-- `routers/auth.py`, `register_user` (the handler body): 400 on a short
password, 409 when the case-sensitively equal email already exists,
otherwise insert one `User` row with `role=user` and return the public
view. `newId` stands for the fresh `uuid.uuid4()`. -/
def register_user (db : AuthDb) (now : Int) (newId : Nat) (email password : String) :
    Except HttpError (AuthDb × UserPublic) :=
  if password.length < 8 then
    .error (.validation "Password must be at least 8 characters")
  else
    match scalarOneOrNone (db.users.filter (fun u => u.email == email)) with
    | .error _ => .error .internal
    | .ok (some _) => .error (.conflict "Email already registered")
    | .ok none =>
      let user : User := ⟨newId, email, hash_password password, .user, now⟩
      .ok ({ db with users := db.users ++ [user] }, toUserPublic user)

/-- `POST /auth/register` as served: pydantic first enforces
`RegisterRequest.password`'s `min_length=8` / `max_length=128`
(`schemas/auth.py`), answering 422 before the handler runs; then the
handler. -/
def registerEndpoint (db : AuthDb) (now : Int) (newId : Nat) (email password : String) :
    Except HttpError (AuthDb × UserPublic) :=
  if password.length < 8 ∨ 128 < password.length then .error .requestValidation
  else register_user db now newId email password

/-- `routers/auth.py`, `login`: unknown email and wrong password take the
same branch and produce the same 401; on success one `RefreshToken` row is
inserted (its PK must be fresh for the commit to succeed). -/
def login (cfg : Settings) (db : AuthDb) (now : Int) (email password : String) :
    Except HttpError (AuthDb × TokenResponse) :=
  match scalarOneOrNone (db.users.filter (fun u => u.email == email)) with
  | .error _ => .error .internal
  | .ok none => .error (.unauthorized "Invalid email or password")
  | .ok (some user) =>
    if verify_password password user.password_hash = false then
      .error (.unauthorized "Invalid email or password")
    else
      let (access_token, expires_in) := create_access_token cfg now user.id user.role
      let (refresh_token, refresh_expires_at) := create_refresh_token cfg now user.id
      if pkPresent db.refresh_tokens user.id refresh_token then .error .internal
      else
        .ok ({ db with refresh_tokens :=
                 db.refresh_tokens ++ [⟨user.id, refresh_token, refresh_expires_at, now⟩] },
             ⟨access_token, refresh_token, "bearer", expires_in, toUserPublic user⟩)

/-- `routers/auth.py`, `refresh`. Returns the outcome together with the
final table state: an error raised before any commit leaves the state
unchanged (the session is closed uncommitted), while the expired-row branch
commits its delete before raising. On full success the old row is deleted
and the rotated row inserted in one commit; within that flush the INSERT is
checked against the pre-flush table (see the module comment on flush
ordering). -/
def refresh (cfg : Settings) (db : AuthDb) (now : Int) (tok : Jwt) :
    Except HttpError TokenResponse × AuthDb :=
  match scalarOneOrNone (db.refresh_tokens.filter (fun r => r.token == tok)) with
  | .error _ => (.error .internal, db)
  | .ok none => (.error (.unauthorized "Invalid refresh token"), db)
  | .ok (some rt) =>
    if rt.expires_at ≤ now then
      (.error (.unauthorized "Refresh token expired"),
       { db with refresh_tokens := db.refresh_tokens.erase rt })
    else
      match decode_token cfg now tok with
      | .error _ => (.error (.unauthorized "Invalid refresh token"), db)
      | .ok payload =>
        if payload.typ ≠ "refresh" then
          (.error (.unauthorized "Invalid token type"), db)
        else
          match payload.sub with
          | none => (.error (.unauthorized "Invalid token subject"), db)
          | some uid =>
            match db.users.find? (fun u => u.id == uid) with
            | none => (.error (.unauthorized "User not found"), db)
            | some user =>
              let (access_token, expires_in) := create_access_token cfg now user.id user.role
              let (new_refresh_token, new_refresh_expires_at) :=
                create_refresh_token cfg now user.id
              if pkPresent db.refresh_tokens user.id new_refresh_token then
                (.error .internal, db)
              else
                (.ok ⟨access_token, new_refresh_token, "bearer", expires_in,
                      toUserPublic user⟩,
                 { db with refresh_tokens :=
                     (db.refresh_tokens.erase rt) ++
                       [⟨user.id, new_refresh_token, new_refresh_expires_at, now⟩] })

/-- `routers/auth.py`, `logout`: `none` stands for an omitted or empty
`refresh_token` (both falsy in the handler). Always 204 unless the lookup
itself faults. -/
def logout (db : AuthDb) (payload : Option Jwt) : Except HttpError Unit × AuthDb :=
  match payload with
  | none => (.ok (), db)
  | some tok =>
    match scalarOneOrNone (db.refresh_tokens.filter (fun r => r.token == tok)) with
    | .error _ => (.error .internal, db)
    | .ok none => (.ok (), db)
    | .ok (some rt) => (.ok (), { db with refresh_tokens := db.refresh_tokens.erase rt })

/-- `deps/auth.py`, `get_current_user`: `none` credentials stand for a
missing or empty bearer header. -/
def get_current_user (cfg : Settings) (db : AuthDb) (now : Int)
    (credentials : Option Jwt) : Except HttpError User :=
  match credentials with
  | none => .error (.unauthorized "Not authenticated")
  | some tok =>
    match decode_token cfg now tok with
    | .error _ => .error (.unauthorized "Invalid token")
    | .ok payload =>
      if payload.typ ≠ "access" then .error (.unauthorized "Invalid token type")
      else
        match payload.sub with
        | none => .error (.unauthorized "Invalid token subject")
        | some uid =>
          match db.users.find? (fun u => u.id == uid) with
          | none => .error (.unauthorized "User not found")
          | some user => .ok user

/-- `deps/auth.py`, `require_admin`. -/
def require_admin (current_user : User) : Except HttpError User :=
  if current_user.role ≠ UserRole.admin then
    .error (.forbidden "Admin privileges required")
  else .ok current_user

/-- PostgreSQL `LIKE` pattern matching over characters (the models target
the `postgresql` dialect): `%` matches any sequence, `_` any single
character, and backslash — the default escape character when, as here, no
`ESCAPE` clause is given — makes the following pattern character literal;
any other character matches itself. The handler passes the query through
unescaped (`like = f"%\x7bq.strip()\x7d%"`), so `%`, `_` and `\` inside
`q` keep these meanings. A pattern ending in a lone escape character is an
error in PostgreSQL; the handler's patterns always end in `%` (a trailing
backslash in `q` escapes that final `%` into a literal), so that case is
unreachable from `list_residents` and is modelled as no-match. -/
def likeMatch : List Char → List Char → Bool
  | [], s => s.isEmpty
  | p :: ps, s =>
    if p = '%' then s.tails.any (fun t => likeMatch ps t)
    else if p = '\\' then
      match ps with
      | [] => false
      | e :: ps' =>
        match s with
        | [] => false
        | c :: s' => (e == c) && likeMatch ps' s'
    else
      match s with
      | [] => false
      | c :: s' => (if p = '_' then true else p == c) && likeMatch ps s'

/-- Python `str.strip()`: remove leading and trailing whitespace
(executable model; `String.trim` agrees but does not kernel-reduce). -/
def pyStrip (s : String) : String :=
  ⟨((s.data.dropWhile Char.isWhitespace).reverse.dropWhile Char.isWhitespace).reverse⟩

/-- Lower-cased character list of a string (`ILIKE` compares
case-insensitively, i.e. as `LIKE` over lower-cased operands). -/
def lowerChars (s : String) : List Char :=
  s.data.map Char.toLower

/-- `column.ilike(pattern)` on a nullable text column: SQL `NULL` never
matches. -/
def ilikeOpt (field : Option String) (pattern : String) : Bool :=
  match field with
  | none => false
  | some f => likeMatch (lowerChars pattern) (lowerChars f)

/-- `models/resident.py`, `Resident` row. -/
structure Resident where
  id : Nat
  first_name : String
  last_name : String
  address : Option String
  city : Option String
  state : Option String
  zip : Option String
  phone : Option String
  email : Option String
  photo_url : Option String
  photo_public_id : Option String
  notes : Option String
  created_at : Int
  updated_at : Int
deriving DecidableEq, Repr

/-- The eight searched columns of `list_residents`, in source order. -/
def searchFields (r : Resident) : List (Option String) :=
  [some r.first_name, some r.last_name, r.address, r.city, r.state, r.zip,
   r.phone, r.email]

/-- The `or_(...)` filter of `list_residents` with `like = "%" + q.strip() + "%"`. -/
def residentMatches (q : String) (r : Resident) : Bool :=
  (searchFields r).any (fun f => ilikeOpt f ("%" ++ pyStrip q ++ "%"))

/-- `routers/residents.py`, sortable columns. -/
inductive SortBy where
  | last_name
  | first_name
  | created_at
  | updated_at
  | city
deriving DecidableEq, Repr

inductive SortDir where
  | asc
  | desc
deriving DecidableEq, Repr

/-- Comparison used by `order_by` for a given sort column and direction
(`NULL`-ordering details are irrelevant to the verified properties; any
total preorder works, since only a permutation is produced). -/
def residentLE (sb : SortBy) (sd : SortDir) (a b : Resident) : Bool :=
  let key : Resident → String := fun r =>
    match sb with
    | .last_name => r.last_name
    | .first_name => r.first_name
    | .created_at => toString r.created_at
    | .updated_at => toString r.updated_at
    | .city => r.city.getD ""
  match sd with
  | .asc => decide (key a ≤ key b)
  | .desc => decide (key b ≤ key a)

/-- Insertion into a sorted list (`ORDER BY` model, kept structurally
recursive so concrete calls evaluate in the kernel). -/
def insertLE (le : Resident → Resident → Bool) (x : Resident) :
    List Resident → List Resident
  | [] => [x]
  | y :: ys => if le x y then x :: y :: ys else y :: insertLE le x ys

/-- Sorting model for `order_by`: an insertion sort by `le`. It produces a
permutation of its input ordered by `le`; the verified properties only use
that the length is preserved. -/
def sortResidents (le : Resident → Resident → Bool) : List Resident → List Resident
  | [] => []
  | x :: xs => insertLE le x (sortResidents le xs)

/-- Case-insensitive substring over lower-cased character lists: the
predicate the spec's words describe for the resident search ("the query
string is a case-insensitive substring of at least one field"). Stated
from the spec for comparison with the implementation's `residentMatches`. -/
def substrContains (needle hay : List Char) : Bool :=
  hay.tails.any (fun t => needle.isPrefixOf t)

/-- The spec-side inclusion predicate for the resident search, to be
compared with `residentMatches` (which uses SQL `ILIKE`). -/
def specMatches (q : String) (r : Resident) : Bool :=
  (searchFields r).any (fun f =>
    match f with
    | none => false
    | some s => substrContains (lowerChars q) (lowerChars s))

/-- `schemas/resident.py`, `ResidentListResponse` (items carried as full
rows; `ResidentOut` is a field-for-field copy). -/
structure ResidentListResponse where
  items : List Resident
  total : Nat
  page : Nat
  page_size : Nat
deriving DecidableEq, Repr

/-- `routers/residents.py`, `list_residents` as served: `Query(ge=1)` /
`Query(ge=1, le=100)` bounds are enforced by FastAPI (422), then: filter
when `q` is provided and non-blank, count the full match set, sort, and
page with `offset ((page-1)*page_size)` and `limit page_size`. The
`get_current_user` dependency only gates access and does not affect the
result, so it is not threaded through here. -/
def list_residents (residents : List Resident) (q : Option String)
    (page page_size : Nat) (sort_by : SortBy) (sort_dir : SortDir) :
    Except HttpError ResidentListResponse :=
  if page < 1 ∨ page_size < 1 ∨ 100 < page_size then .error .requestValidation
  else
    let filtered :=
      match q with
      | none => residents
      | some qs => if qs ≠ "" ∧ pyStrip qs ≠ "" then residents.filter (residentMatches qs)
                   else residents
    let sorted := sortResidents (residentLE sort_by sort_dir) filtered
    .ok ⟨(sorted.drop ((page - 1) * page_size)).take page_size,
         filtered.length, page, page_size⟩

/-- `schemas/resident.py`, `ResidentCreate` (pydantic length bounds are
orthogonal to the verified properties). -/
structure ResidentCreate where
  first_name : String
  last_name : String
  address : Option String
  city : Option String
  state : Option String
  zip : Option String
  phone : Option String
  email : Option String
  photo_url : Option String
  photo_public_id : Option String
  notes : Option String
deriving DecidableEq, Repr

/-- `schemas/resident.py`, `ResidentUpdate` with `exclude_unset`: a `some`
field was provided in the request body. -/
structure ResidentUpdate where
  first_name : Option String := none
  last_name : Option String := none
  address : Option (Option String) := none
  city : Option (Option String) := none
  state : Option (Option String) := none
  zip : Option (Option String) := none
  phone : Option (Option String) := none
  email : Option (Option String) := none
  photo_url : Option (Option String) := none
  photo_public_id : Option (Option String) := none
  notes : Option (Option String) := none
deriving DecidableEq, Repr

/-- `setattr` loop of `update_resident` over `model_dump(exclude_unset=True)`. -/
def applyUpdate (patch : ResidentUpdate) (r : Resident) (now : Int) : Resident :=
  { r with
    first_name := patch.first_name.getD r.first_name
    last_name := patch.last_name.getD r.last_name
    address := patch.address.getD r.address
    city := patch.city.getD r.city
    state := patch.state.getD r.state
    zip := patch.zip.getD r.zip
    phone := patch.phone.getD r.phone
    email := patch.email.getD r.email
    photo_url := patch.photo_url.getD r.photo_url
    photo_public_id := patch.photo_public_id.getD r.photo_public_id
    notes := patch.notes.getD r.notes
    updated_at := now }

/-- `routers/residents.py`, `create_resident`: the `require_admin`
dependency runs before the handler; on success one row is appended.
Returns the outcome and the final table. -/
def create_resident (user : User) (residents : List Resident) (now : Int)
    (newId : Nat) (payload : ResidentCreate) :
    Except HttpError Resident × List Resident :=
  match require_admin user with
  | .error e => (.error e, residents)
  | .ok _ =>
    let r : Resident :=
      ⟨newId, payload.first_name, payload.last_name, payload.address, payload.city,
       payload.state, payload.zip, payload.phone, payload.email, payload.photo_url,
       payload.photo_public_id, payload.notes, now, now⟩
    (.ok r, residents ++ [r])

/-- `routers/residents.py`, `update_resident` (admin gate, 404 on a missing
id, otherwise patch in place). -/
def update_resident (user : User) (residents : List Resident) (now : Int)
    (rid : Nat) (patch : ResidentUpdate) :
    Except HttpError Resident × List Resident :=
  match require_admin user with
  | .error e => (.error e, residents)
  | .ok _ =>
    match residents.find? (fun r => r.id == rid) with
    | none => (.error (.notFound "Resident not found"), residents)
    | some r =>
      let r' := applyUpdate patch r now
      (.ok r', residents.map (fun x => if x.id == rid then r' else x))

/-- `routers/residents.py`, `delete_resident` (admin gate, 404 on a missing
id, otherwise delete the row and commit). -/
def delete_resident (user : User) (residents : List Resident) (rid : Nat) :
    Except HttpError Unit × List Resident :=
  match require_admin user with
  | .error e => (.error e, residents)
  | .ok _ =>
    match residents.find? (fun r => r.id == rid) with
    | none => (.error (.notFound "Resident not found"), residents)
    | some r => (.ok (), residents.erase r)

/-! ## Helper lemmas -/

/-- If filtering a list yields exactly one element, erasing that element
leaves nothing satisfying the predicate. -/
theorem filter_erase_eq_nil {α : Type} [DecidableEq α] {p : α → Bool}
    {l : List α} {a : α} (h : l.filter p = [a]) :
    (l.erase a).filter p = [] := by
  induction l with
  | nil => simp at h
  | cons x xs ih =>
    by_cases hp : p x = true
    · have hx : x = a ∧ xs.filter p = [] := by
        have := h
        rw [List.filter_cons_of_pos hp] at this
        exact ⟨List.head_eq_of_cons_eq this, List.tail_eq_of_cons_eq this⟩
      rw [hx.1, List.erase_cons_head, hx.2]
    · have hxs : xs.filter p = [a] := by
        have := h
        rwa [List.filter_cons_of_neg hp] at this
      have hpa : p a = true := by
        have : a ∈ xs.filter p := by rw [hxs]; exact List.mem_singleton_self a
        exact (List.mem_filter.mp this).2
      have hne : ¬(x == a) = true := by
        intro hxa
        exact hp (beq_iff_eq.mp hxa ▸ hpa)
      rw [List.erase_cons_tail hne, List.filter_cons_of_neg hp]
      exact ih hxs

/-- A one-element filter result is a member satisfying the predicate. -/
theorem mem_of_filter_eq_single {α : Type} {p : α → Bool}
    {l : List α} {a : α} (h : l.filter p = [a]) :
    a ∈ l ∧ p a = true := by
  have : a ∈ l.filter p := by rw [h]; exact List.mem_singleton_self a
  exact ⟨(List.mem_filter.mp this).1, (List.mem_filter.mp this).2⟩

/-- `scalar_one_or_none` returns `some a` exactly on the singleton row
list `[a]`. -/
theorem scalarOneOrNone_eq_some {α : Type} {rows : List α} {a : α}
    (h : scalarOneOrNone rows = .ok (some a)) : rows = [a] := by
  match rows with
  | [] => simp [scalarOneOrNone] at h
  | [x] => simp only [scalarOneOrNone, Except.ok.injEq, Option.some.injEq] at h; rw [h]
  | _ :: _ :: _ => simp [scalarOneOrNone] at h

/-- A filter with at most one hit is handled by `scalar_one_or_none`
without a `MultipleResultsFound` fault. -/
theorem scalarOneOrNone_of_length_le_one {α : Type} {rows : List α}
    (h : rows.length ≤ 1) :
    scalarOneOrNone rows = .ok rows.head? := by
  match rows with
  | [] => rfl
  | [x] => rfl
  | x :: y :: t => simp at h

/-! ## Claim theorems -/

/-- **C3.** For any two Login calls, one with an email not present in the
user store and one with an existing email but a non-matching password, both
fail with the very same `Unauthorized` error value (status 401 and response
shape included), so a caller cannot distinguish an unknown email from a
wrong password. -/
theorem login_unknown_email_and_wrong_password_same_error
    (cfg cfg' : Settings) (db db' : AuthDb) (now now' : Int)
    (e p e' p' : String) (u : User)
    (h1 : db.users.filter (fun x => x.email == e) = [])
    (h2 : db'.users.filter (fun x => x.email == e') = [u])
    (h3 : verify_password p' u.password_hash = false) :
    login cfg db now e p = .error (.unauthorized "Invalid email or password") ∧
    login cfg' db' now' e' p' = .error (.unauthorized "Invalid email or password") ∧
    HttpError.status (.unauthorized "Invalid email or password") = 401 := by
  refine ⟨?_, ?_, rfl⟩
  · unfold login
    rw [h1]
    rfl
  · unfold login
    rw [h2]
    simp [scalarOneOrNone, h3]

/-- Witness for C3 at a concrete store: an unknown email and a wrong
password for `a@x.com` produce the identical 401. -/
theorem login_unknown_email_and_wrong_password_same_error_witness :
    login defaultSettings ⟨[], []⟩ 0 "ghost@x.com" "whatever" =
      .error (.unauthorized "Invalid email or password") ∧
    login defaultSettings ⟨[⟨1, "a@x.com", hash_password "longpass1", .user, 0⟩], []⟩ 0
        "a@x.com" "wrongpass" =
      .error (.unauthorized "Invalid email or password") ∧
    HttpError.status (.unauthorized "Invalid email or password") = 401 :=
  login_unknown_email_and_wrong_password_same_error
    defaultSettings defaultSettings ⟨[], []⟩
    ⟨[⟨1, "a@x.com", hash_password "longpass1", .user, 0⟩], []⟩ 0 0
    "ghost@x.com" "whatever" "a@x.com" "wrongpass"
    ⟨1, "a@x.com", hash_password "longpass1", .user, 0⟩
    (by decide) (by decide) (by decide)

/-- **C5.** A Refresh whose token string is found but whose stored
`expires_at` is not after the current time deletes that row (the deletion
is committed) and then fails 401 "Refresh token expired": the store shrinks
by one row even though the operation fails. -/
theorem refresh_expired_row_deletes_then_401
    (cfg : Settings) (db : AuthDb) (now : Int) (tok : Jwt) (rt : RefreshTokenRow)
    (hfind : db.refresh_tokens.filter (fun r => r.token == tok) = [rt])
    (hexp : rt.expires_at ≤ now) :
    refresh cfg db now tok =
      (.error (.unauthorized "Refresh token expired"),
       { db with refresh_tokens := db.refresh_tokens.erase rt }) ∧
    (db.refresh_tokens.erase rt).length + 1 = db.refresh_tokens.length ∧
    HttpError.status (.unauthorized "Refresh token expired") = 401 := by
  have hmem : rt ∈ db.refresh_tokens := (mem_of_filter_eq_single hfind).1
  refine ⟨?_, ?_, rfl⟩
  · unfold refresh
    rw [hfind]
    simp [scalarOneOrNone, hexp]
  · rw [List.length_erase_of_mem hmem]
    have : 0 < db.refresh_tokens.length := List.length_pos_of_mem hmem
    omega

/-- Witness for C5: one expired row, refresh at a later time. The store
goes from one row to zero and the call answers 401 "Refresh token
expired". -/
theorem refresh_expired_row_deletes_then_401_witness :
    refresh defaultSettings
        ⟨[⟨1, "a@x.com", hash_password "longpass1", .user, 0⟩],
         [⟨1, (create_refresh_token defaultSettings 100 1).1,
           (create_refresh_token defaultSettings 100 1).2, 100⟩]⟩
        (100 + 30 * 86400) (create_refresh_token defaultSettings 100 1).1 =
      (.error (.unauthorized "Refresh token expired"),
       (⟨[⟨1, "a@x.com", hash_password "longpass1", .user, 0⟩], []⟩ : AuthDb)) ∧
    ([] : List RefreshTokenRow).length + 1 =
      ([⟨1, (create_refresh_token defaultSettings 100 1).1,
        (create_refresh_token defaultSettings 100 1).2, 100⟩] : List RefreshTokenRow).length ∧
    HttpError.status (.unauthorized "Refresh token expired") = 401 :=
  refresh_expired_row_deletes_then_401 defaultSettings
    ⟨[⟨1, "a@x.com", hash_password "longpass1", .user, 0⟩],
     [⟨1, (create_refresh_token defaultSettings 100 1).1,
       (create_refresh_token defaultSettings 100 1).2, 100⟩]⟩
    (100 + 30 * 86400) (create_refresh_token defaultSettings 100 1).1
    ⟨1, (create_refresh_token defaultSettings 100 1).1,
      (create_refresh_token defaultSettings 100 1).2, 100⟩
    (by decide) (by decide)

/-- **C8.** An authenticated non-admin caller gets 403 "Admin privileges
required" from resident create, update and delete, and the resident table
is unchanged in all three cases (in particular a non-admin delete leaves
the row in place). -/
theorem non_admin_resident_mutations_forbidden_and_unchanged
    (user : User) (residents : List Resident) (now : Int) (newId : Nat)
    (payload : ResidentCreate) (rid : Nat) (patch : ResidentUpdate)
    (h : user.role ≠ UserRole.admin) :
    create_resident user residents now newId payload =
      (.error (.forbidden "Admin privileges required"), residents) ∧
    update_resident user residents now rid patch =
      (.error (.forbidden "Admin privileges required"), residents) ∧
    delete_resident user residents rid =
      (.error (.forbidden "Admin privileges required"), residents) ∧
    HttpError.status (.forbidden "Admin privileges required") = 403 := by
  unfold create_resident update_resident delete_resident require_admin
  simp [h, HttpError.status]

/-- Witness for C8: a `user`-role caller attempting all three mutations on
a one-row table gets 403 each time and the row remains. -/
theorem non_admin_resident_mutations_forbidden_and_unchanged_witness :
    create_resident ⟨1, "a@x.com", hash_password "longpass1", .user, 0⟩
        [⟨7, "John", "Smith", none, none, none, none, none, none, none, none, none, 0, 0⟩]
        5 9 ⟨"Jane", "Doe", none, none, none, none, none, none, none, none, none⟩ =
      (.error (.forbidden "Admin privileges required"),
       [⟨7, "John", "Smith", none, none, none, none, none, none, none, none, none, 0, 0⟩]) ∧
    update_resident ⟨1, "a@x.com", hash_password "longpass1", .user, 0⟩
        [⟨7, "John", "Smith", none, none, none, none, none, none, none, none, none, 0, 0⟩]
        5 7 {} =
      (.error (.forbidden "Admin privileges required"),
       [⟨7, "John", "Smith", none, none, none, none, none, none, none, none, none, 0, 0⟩]) ∧
    delete_resident ⟨1, "a@x.com", hash_password "longpass1", .user, 0⟩
        [⟨7, "John", "Smith", none, none, none, none, none, none, none, none, none, 0, 0⟩] 7 =
      (.error (.forbidden "Admin privileges required"),
       [⟨7, "John", "Smith", none, none, none, none, none, none, none, none, none, 0, 0⟩]) ∧
    HttpError.status (.forbidden "Admin privileges required") = 403 :=
  non_admin_resident_mutations_forbidden_and_unchanged
    ⟨1, "a@x.com", hash_password "longpass1", .user, 0⟩
    [⟨7, "John", "Smith", none, none, none, none, none, none, none, none, none, 0, 0⟩]
    5 9 ⟨"Jane", "Doe", none, none, none, none, none, none, none, none, none⟩ 7 {}
    (by decide)

/-- **C9.** Logout always answers 204 (`ok`): an omitted/empty token, an
unknown token and a known token all succeed; a known token's row is
deleted, otherwise the store is untouched; and running Logout twice with
the same payload ends in the same store as running it once. The hypothesis
is the store invariant that a token string occurs in at most one row
(each row's token embeds its owner as `sub`, and `(user_id, token)` is the
primary key, so duplicates cannot be created through the API). -/
theorem logout_total_and_idempotent
    (db : AuthDb) (payload : Option Jwt)
    (huniq : ∀ tok, payload = some tok →
       (db.refresh_tokens.filter (fun r => r.token == tok)).length ≤ 1) :
    (logout db payload).1 = .ok () ∧
    (payload = none → (logout db payload).2 = db) ∧
    (∀ tok, payload = some tok →
       (∀ rt ∈ db.refresh_tokens, rt.token ≠ tok) → (logout db payload).2 = db) ∧
    (∀ tok rt, payload = some tok →
       db.refresh_tokens.filter (fun r => r.token == tok) = [rt] →
       (logout db payload).2 = { db with refresh_tokens := db.refresh_tokens.erase rt }) ∧
    logout (logout db payload).2 payload = (.ok (), (logout db payload).2) := by
  match payload with
  | none => exact ⟨rfl, fun _ => rfl, by simp, by simp, rfl⟩
  | some tok =>
    have hlen := huniq tok rfl
    rcases hflt : db.refresh_tokens.filter (fun r => r.token == tok) with _ | ⟨rt, rest⟩
    · have hnone : logout db (some tok) = (.ok (), db) := by
        simp only [logout, hflt, scalarOneOrNone]
      refine ⟨by rw [hnone], by simp, by simp [hnone], ?_, ?_⟩
      · intro tok' rt h1 h2
        cases h1
        rw [hflt] at h2
        cases h2
      · rw [hnone]
        exact hnone
    · have hsing : rest = [] := by
        rw [hflt] at hlen
        simp at hlen
        exact hlen
      subst hsing
      have hone : logout db (some tok) =
          (.ok (), { db with refresh_tokens := db.refresh_tokens.erase rt }) := by
        simp only [logout, hflt, scalarOneOrNone]
      have herased : ((db.refresh_tokens.erase rt).filter (fun r => r.token == tok)) = [] :=
        filter_erase_eq_nil hflt
      refine ⟨by rw [hone], by simp, ?_, ?_, ?_⟩
      · intro tok' h1 h2
        cases h1
        have := (mem_of_filter_eq_single hflt).1
        have hrt := (mem_of_filter_eq_single hflt).2
        simp only [beq_iff_eq] at hrt
        exact absurd hrt (h2 rt this)
      · intro tok' rt' h1 h2
        cases h1
        rw [hflt] at h2
        cases h2
        rw [hone]
      · rw [hone]
        simp only [logout, herased, scalarOneOrNone]

/-- Witness for C9: a store with one row, logging out that row's token.
The first call deletes the row, the second is a no-op that still answers
204. -/
theorem logout_total_and_idempotent_witness :
    (logout ⟨[⟨1, "a@x.com", hash_password "longpass1", .user, 0⟩],
             [⟨1, (create_refresh_token defaultSettings 100 1).1,
               (create_refresh_token defaultSettings 100 1).2, 100⟩]⟩
       (some (create_refresh_token defaultSettings 100 1).1)).1 = .ok () ∧
    (some (create_refresh_token defaultSettings 100 1).1 = none →
       (logout ⟨[⟨1, "a@x.com", hash_password "longpass1", .user, 0⟩],
                [⟨1, (create_refresh_token defaultSettings 100 1).1,
                  (create_refresh_token defaultSettings 100 1).2, 100⟩]⟩
          (some (create_refresh_token defaultSettings 100 1).1)).2 =
         ⟨[⟨1, "a@x.com", hash_password "longpass1", .user, 0⟩],
          [⟨1, (create_refresh_token defaultSettings 100 1).1,
            (create_refresh_token defaultSettings 100 1).2, 100⟩]⟩) ∧
    (∀ tok, some (create_refresh_token defaultSettings 100 1).1 = some tok →
       (∀ rt ∈ ([⟨1, (create_refresh_token defaultSettings 100 1).1,
                  (create_refresh_token defaultSettings 100 1).2, 100⟩] :
                 List RefreshTokenRow), rt.token ≠ tok) →
       (logout ⟨[⟨1, "a@x.com", hash_password "longpass1", .user, 0⟩],
                [⟨1, (create_refresh_token defaultSettings 100 1).1,
                  (create_refresh_token defaultSettings 100 1).2, 100⟩]⟩
          (some (create_refresh_token defaultSettings 100 1).1)).2 =
         ⟨[⟨1, "a@x.com", hash_password "longpass1", .user, 0⟩],
          [⟨1, (create_refresh_token defaultSettings 100 1).1,
            (create_refresh_token defaultSettings 100 1).2, 100⟩]⟩) ∧
    (∀ tok rt, some (create_refresh_token defaultSettings 100 1).1 = some tok →
       ([⟨1, (create_refresh_token defaultSettings 100 1).1,
          (create_refresh_token defaultSettings 100 1).2, 100⟩] :
         List RefreshTokenRow).filter (fun r => r.token == tok) = [rt] →
       (logout ⟨[⟨1, "a@x.com", hash_password "longpass1", .user, 0⟩],
                [⟨1, (create_refresh_token defaultSettings 100 1).1,
                  (create_refresh_token defaultSettings 100 1).2, 100⟩]⟩
          (some (create_refresh_token defaultSettings 100 1).1)).2 =
         ⟨[⟨1, "a@x.com", hash_password "longpass1", .user, 0⟩],
          ([⟨1, (create_refresh_token defaultSettings 100 1).1,
            (create_refresh_token defaultSettings 100 1).2, 100⟩] :
            List RefreshTokenRow).erase rt⟩) ∧
    logout (logout ⟨[⟨1, "a@x.com", hash_password "longpass1", .user, 0⟩],
                    [⟨1, (create_refresh_token defaultSettings 100 1).1,
                      (create_refresh_token defaultSettings 100 1).2, 100⟩]⟩
              (some (create_refresh_token defaultSettings 100 1).1)).2
        (some (create_refresh_token defaultSettings 100 1).1) =
      (.ok (), (logout ⟨[⟨1, "a@x.com", hash_password "longpass1", .user, 0⟩],
                        [⟨1, (create_refresh_token defaultSettings 100 1).1,
                          (create_refresh_token defaultSettings 100 1).2, 100⟩]⟩
                  (some (create_refresh_token defaultSettings 100 1).1)).2) :=
  logout_total_and_idempotent
    ⟨[⟨1, "a@x.com", hash_password "longpass1", .user, 0⟩],
     [⟨1, (create_refresh_token defaultSettings 100 1).1,
       (create_refresh_token defaultSettings 100 1).2, 100⟩]⟩
    (some (create_refresh_token defaultSettings 100 1).1)
    (by decide)

/-- **C2 counterexample.** As served, a password shorter than 8 characters
is rejected by pydantic's `min_length=8` on `RegisterRequest`
(`schemas/auth.py`), which FastAPI answers with HTTP 422 — not with the
handler's 400, which is unreachable through the API. So the claim's
"ValidationError (HTTP 400)" is wrong about this input. -/
theorem register_short_password_is_422_not_400 :
    registerEndpoint ⟨[], []⟩ 0 1 "a@x.com" "short" = .error .requestValidation ∧
    HttpError.status .requestValidation = 422 ∧
    ¬ HttpError.status .requestValidation = 400 := by
  refine ⟨?_, rfl, by decide⟩
  rfl

/-- **C2 amended.** Register as served: a password shorter than 8 (or
longer than 128) characters fails request validation with HTTP 422 (the
handler's own 400 guard never fires through the API); with an in-range
password, a case-sensitively equal existing email fails 409 Conflict;
otherwise exactly one `User` row is inserted with `role=user` and the
password hash, and the public view `{id, email, role, created_at}` is
returned. The uniqueness hypothesis is the `users.email` UNIQUE
constraint. -/
theorem register_endpoint_behaviour
    (db : AuthDb) (now : Int) (newId : Nat) (email password : String)
    (huniq : (db.users.filter (fun u => u.email == email)).length ≤ 1) :
    (password.length < 8 ∨ 128 < password.length →
       registerEndpoint db now newId email password = .error .requestValidation ∧
       HttpError.status .requestValidation = 422) ∧
    (8 ≤ password.length → password.length ≤ 128 →
       (∃ u ∈ db.users, u.email = email) →
       registerEndpoint db now newId email password =
         .error (.conflict "Email already registered") ∧
       HttpError.status (.conflict "Email already registered") = 409) ∧
    (8 ≤ password.length → password.length ≤ 128 →
       (∀ u ∈ db.users, u.email ≠ email) →
       registerEndpoint db now newId email password =
         .ok ({ db with users :=
                  db.users ++ [⟨newId, email, hash_password password, .user, now⟩] },
              ⟨newId, email, .user, now⟩)) := by
  refine ⟨?_, ?_, ?_⟩
  · intro h
    exact ⟨by simp only [registerEndpoint, if_pos h], rfl⟩
  · intro h1 h2 ⟨u, hu, hue⟩
    have hrange : ¬(password.length < 8 ∨ 128 < password.length) := by omega
    have hmem : u ∈ db.users.filter (fun x => x.email == email) :=
      List.mem_filter.mpr ⟨hu, beq_iff_eq.mpr hue⟩
    have hpos : 0 < (db.users.filter (fun x => x.email == email)).length :=
      List.length_pos_of_mem hmem
    have hlen1 : (db.users.filter (fun x => x.email == email)).length = 1 := by omega
    obtain ⟨x, hx⟩ := List.length_eq_one.mp hlen1
    refine ⟨?_, rfl⟩
    simp only [registerEndpoint, if_neg hrange, register_user, if_neg (by omega :
      ¬ password.length < 8), hx, scalarOneOrNone]
  · intro h1 h2 hnone
    have hrange : ¬(password.length < 8 ∨ 128 < password.length) := by omega
    have hflt : db.users.filter (fun x => x.email == email) = [] :=
      List.filter_eq_nil_iff.mpr (fun u hu => by
        simp only [beq_iff_eq]
        exact hnone u hu)
    simp only [registerEndpoint, if_neg hrange, register_user, if_neg (by omega :
      ¬ password.length < 8), hflt, scalarOneOrNone]
    rfl

/-- Witness for C2 amended: registering `a@x.com` with the 9-character
password `longpass1` against an empty store inserts exactly that one user
row with `role=user` and returns its public view. -/
theorem register_endpoint_behaviour_witness :
    registerEndpoint ⟨[], []⟩ 0 1 "a@x.com" "longpass1" =
      .ok (⟨[⟨1, "a@x.com", hash_password "longpass1", .user, 0⟩], []⟩,
           ⟨1, "a@x.com", .user, 0⟩) :=
  (register_endpoint_behaviour ⟨[], []⟩ 0 1 "a@x.com" "longpass1"
      (by decide)).2.2 (by decide) (by decide) (by simp)

/-- **C4 counterexample.** Token-verification failures do NOT all carry one
identical message: an expired token yields 401 "Invalid token" while a
wrong-type (refresh) token yields 401 "Invalid token type" — two causes the
claim lists, with distinguishable responses. ("Invalid token subject" and
"User not found" differ likewise.) -/
theorem token_failure_messages_distinguish_causes :
    get_current_user defaultSettings ⟨[], []⟩ 100
        (some ⟨⟨"resident-directory", "resident-directory-frontend", some 1,
                some .user, "access", 0, 50⟩, "test-secret"⟩) =
      .error (.unauthorized "Invalid token") ∧
    get_current_user defaultSettings ⟨[], []⟩ 100
        (some ⟨⟨"resident-directory", "resident-directory-frontend", some 1,
                none, "refresh", 0, 10000⟩, "test-secret"⟩) =
      .error (.unauthorized "Invalid token type") ∧
    ¬ (HttpError.unauthorized "Invalid token" =
        HttpError.unauthorized "Invalid token type") := by
  refine ⟨rfl, rfl, by decide⟩

/-- **C4 amended.** What does hold across both token-verifying sites
(`get_current_user` and the verification section of `refresh`): every
*decode-level* failure (invalid signature, expired, audience mismatch,
issuer mismatch) collapses to one identical generic 401 per endpoint —
"Invalid token" in `get_current_user`, "Invalid refresh token" in
`refresh` — because the `except Exception` swallows the cause; whereas the
subsequent checks return 401 with their own distinct details, identical
across the two endpoints per cause: "Invalid token type" for a wrong
token type, "Invalid token subject" for an unresolvable subject and
"User not found" for an unknown user. Every `get_current_user` failure,
whatever the cause, has status 401. -/
theorem token_verification_failures_status_401 (cfg : Settings) (db : AuthDb) (now : Int) :
    (∀ tok err, decode_token cfg now tok = .error err →
       get_current_user cfg db now (some tok) = .error (.unauthorized "Invalid token")) ∧
    (∀ tok rt err, db.refresh_tokens.filter (fun r => r.token == tok) = [rt] →
       now < rt.expires_at → decode_token cfg now tok = .error err →
       (refresh cfg db now tok).1 = .error (.unauthorized "Invalid refresh token")) ∧
    (∀ tok p, decode_token cfg now tok = .ok p → p.typ ≠ "access" →
       get_current_user cfg db now (some tok) = .error (.unauthorized "Invalid token type")) ∧
    (∀ tok p, decode_token cfg now tok = .ok p → p.typ = "access" → p.sub = none →
       get_current_user cfg db now (some tok) = .error (.unauthorized "Invalid token subject")) ∧
    (∀ tok p uid, decode_token cfg now tok = .ok p → p.typ = "access" → p.sub = some uid →
       db.users.find? (fun u => u.id == uid) = none →
       get_current_user cfg db now (some tok) = .error (.unauthorized "User not found")) ∧
    (∀ tok rt p, db.refresh_tokens.filter (fun r => r.token == tok) = [rt] →
       now < rt.expires_at → decode_token cfg now tok = .ok p → p.typ ≠ "refresh" →
       (refresh cfg db now tok).1 = .error (.unauthorized "Invalid token type")) ∧
    (∀ tok rt p, db.refresh_tokens.filter (fun r => r.token == tok) = [rt] →
       now < rt.expires_at → decode_token cfg now tok = .ok p → p.typ = "refresh" →
       p.sub = none →
       (refresh cfg db now tok).1 = .error (.unauthorized "Invalid token subject")) ∧
    (∀ tok rt p uid, db.refresh_tokens.filter (fun r => r.token == tok) = [rt] →
       now < rt.expires_at → decode_token cfg now tok = .ok p → p.typ = "refresh" →
       p.sub = some uid → db.users.find? (fun u => u.id == uid) = none →
       (refresh cfg db now tok).1 = .error (.unauthorized "User not found")) ∧
    (∀ cred e, get_current_user cfg db now cred = .error e → e.status = 401) := by
  refine ⟨?_, ?_, ?_, ?_, ?_, ?_, ?_, ?_, ?_⟩
  · intro tok err h
    simp only [get_current_user, h]
  · intro tok rt err hfind hexp hdec
    have hexp' : ¬ (rt.expires_at ≤ now) := by omega
    simp only [refresh, hfind, scalarOneOrNone, if_neg hexp', hdec]
  · intro tok p hdec htyp
    simp only [get_current_user, hdec, if_pos htyp]
  · intro tok p hdec htyp hsub
    simp only [get_current_user, hdec, htyp, hsub, ne_eq, not_true_eq_false, if_false]
  · intro tok p uid hdec htyp hsub huser
    simp only [get_current_user, hdec, htyp, hsub, huser, ne_eq, not_true_eq_false, if_false]
  · intro tok rt p hfind hexp hdec htyp
    have hexp' : ¬ (rt.expires_at ≤ now) := by omega
    simp only [refresh, hfind, scalarOneOrNone, if_neg hexp', hdec, if_pos htyp]
  · intro tok rt p hfind hexp hdec htyp hsub
    have hexp' : ¬ (rt.expires_at ≤ now) := by omega
    simp only [refresh, hfind, scalarOneOrNone, if_neg hexp', hdec, htyp, hsub, ne_eq,
      not_true_eq_false, if_false]
  · intro tok rt p uid hfind hexp hdec htyp hsub huser
    have hexp' : ¬ (rt.expires_at ≤ now) := by omega
    simp only [refresh, hfind, scalarOneOrNone, if_neg hexp', hdec, htyp, hsub, huser,
      ne_eq, not_true_eq_false, if_false]
  · intro cred e h
    match cred with
    | none =>
      simp only [get_current_user, Except.error.injEq] at h
      subst h
      rfl
    | some tok =>
      unfold get_current_user at h
      repeat' split at h
      all_goals first
        | (simp only [Except.error.injEq] at h; subst h; rfl)
        | exact absurd h (by simp)

/-- Witness for C4 amended: a token signed with the wrong key is answered
with exactly 401 "Invalid token" by `get_current_user` and with exactly
401 "Invalid refresh token" by `refresh` (stored row present and
unexpired); a valid-signature refresh-type token gets "Invalid token
type" and a valid access token with an unknown subject gets
"User not found". -/
theorem token_verification_failures_status_401_witness :
    get_current_user defaultSettings ⟨[], []⟩ 100
        (some ⟨⟨"resident-directory", "resident-directory-frontend", some 1,
                some .user, "access", 0, 10000⟩, "other-secret"⟩) =
      .error (.unauthorized "Invalid token") ∧
    (refresh defaultSettings
        ⟨[], [⟨1, ⟨⟨"resident-directory", "resident-directory-frontend", some 1,
                   some .user, "access", 0, 10000⟩, "other-secret"⟩, 99999, 0⟩]⟩ 100
        ⟨⟨"resident-directory", "resident-directory-frontend", some 1,
          some .user, "access", 0, 10000⟩, "other-secret"⟩).1 =
      .error (.unauthorized "Invalid refresh token") ∧
    get_current_user defaultSettings ⟨[], []⟩ 100
        (some ⟨⟨"resident-directory", "resident-directory-frontend", some 1,
                none, "refresh", 0, 10000⟩, "test-secret"⟩) =
      .error (.unauthorized "Invalid token type") ∧
    get_current_user defaultSettings ⟨[], []⟩ 100
        (some ⟨⟨"resident-directory", "resident-directory-frontend", some 5,
                some .user, "access", 0, 10000⟩, "test-secret"⟩) =
      .error (.unauthorized "User not found") :=
  ⟨(token_verification_failures_status_401 defaultSettings ⟨[], []⟩ 100).1
     ⟨⟨"resident-directory", "resident-directory-frontend", some 1,
       some .user, "access", 0, 10000⟩, "other-secret"⟩
     .invalidSignature (by decide),
   (token_verification_failures_status_401 defaultSettings
       ⟨[], [⟨1, ⟨⟨"resident-directory", "resident-directory-frontend", some 1,
                  some .user, "access", 0, 10000⟩, "other-secret"⟩, 99999, 0⟩]⟩ 100).2.1
     ⟨⟨"resident-directory", "resident-directory-frontend", some 1,
       some .user, "access", 0, 10000⟩, "other-secret"⟩
     ⟨1, ⟨⟨"resident-directory", "resident-directory-frontend", some 1,
          some .user, "access", 0, 10000⟩, "other-secret"⟩, 99999, 0⟩
     .invalidSignature (by decide) (by decide) (by decide),
   (token_verification_failures_status_401 defaultSettings ⟨[], []⟩ 100).2.2.1
     ⟨⟨"resident-directory", "resident-directory-frontend", some 1,
       none, "refresh", 0, 10000⟩, "test-secret"⟩
     ⟨"resident-directory", "resident-directory-frontend", some 1,
       none, "refresh", 0, 10000⟩ (by decide) (by decide),
   (token_verification_failures_status_401 defaultSettings ⟨[], []⟩ 100).2.2.2.2.1
     ⟨⟨"resident-directory", "resident-directory-frontend", some 5,
       some .user, "access", 0, 10000⟩, "test-secret"⟩
     ⟨"resident-directory", "resident-directory-frontend", some 5,
       some .user, "access", 0, 10000⟩ 5 (by decide) (by decide) (by decide) (by decide)⟩

/-- **C6.** `create_access_token` returns `expiresInSeconds` equal to the
configured TTL `access_token_expires_minutes * 60` (1800 under the default
settings), the signed `exp` claim equals issue time plus that TTL, and
`decode_token` accepts the token at any instant strictly before `exp` and
rejects it as expired at any instant after `exp`. -/
theorem access_token_ttl_and_expiry_boundary
    (cfg : Settings) (now : Int) (subject : Nat) (role : UserRole) :
    (create_access_token cfg now subject role).2 =
      (cfg.access_token_expires_minutes : Int) * 60 ∧
    (defaultSettings.access_token_expires_minutes : Int) * 60 = 1800 ∧
    (create_access_token cfg now subject role).1.payload.exp =
      now + (create_access_token cfg now subject role).2 ∧
    (∀ t : Int, t < (create_access_token cfg now subject role).1.payload.exp →
       decode_token cfg t (create_access_token cfg now subject role).1 =
         .ok (create_access_token cfg now subject role).1.payload) ∧
    (∀ t : Int, (create_access_token cfg now subject role).1.payload.exp < t →
       decode_token cfg t (create_access_token cfg now subject role).1 =
         .error .expired) := by
  refine ⟨rfl, by decide, rfl, ?_, ?_⟩
  · intro t ht
    simp only [create_access_token] at ht
    have hle : ¬ (now + (cfg.access_token_expires_minutes : Int) * 60 ≤ t) := by omega
    simp [create_access_token, decode_token, hle]
  · intro t ht
    simp only [create_access_token] at ht
    have hle : now + (cfg.access_token_expires_minutes : Int) * 60 ≤ t := by omega
    simp [create_access_token, decode_token, hle]

/-- Witness for C6 at the default TTL: the token issued at time 0 carries
`expires_in = 1800`, is accepted at 1799 and rejected as expired at
1801. -/
theorem access_token_ttl_and_expiry_boundary_witness :
    (create_access_token defaultSettings 0 1 .user).2 = 1800 ∧
    decode_token defaultSettings 1799 (create_access_token defaultSettings 0 1 .user).1 =
      .ok (create_access_token defaultSettings 0 1 .user).1.payload ∧
    decode_token defaultSettings 1801 (create_access_token defaultSettings 0 1 .user).1 =
      .error .expired :=
  ⟨(access_token_ttl_and_expiry_boundary defaultSettings 0 1 .user).1,
   (access_token_ttl_and_expiry_boundary defaultSettings 0 1 .user).2.2.2.1 1799
     (by decide),
   (access_token_ttl_and_expiry_boundary defaultSettings 0 1 .user).2.2.2.2 1801
     (by decide)⟩

/-- **C10.** A list query whose `q` is `none` or blank (empty or
whitespace-only, so `q.strip()` is falsy) applies no search filter: the
response is identical to a query without `q`, and `total` is the full
resident count. -/
theorem blank_query_applies_no_filter
    (residents : List Resident) (q : String) (page page_size : Nat)
    (sb : SortBy) (sd : SortDir)
    (hq : pyStrip q = "")
    (hpage : 1 ≤ page) (hps1 : 1 ≤ page_size) (hps2 : page_size ≤ 100) :
    list_residents residents (some q) page page_size sb sd =
      list_residents residents none page page_size sb sd ∧
    list_residents residents (some q) page page_size sb sd =
      .ok ⟨((sortResidents (residentLE sb sd) residents).drop
              ((page - 1) * page_size)).take page_size,
           residents.length, page, page_size⟩ := by
  have hbounds : ¬ (page < 1 ∨ page_size < 1 ∨ 100 < page_size) := by omega
  have hcond : ¬ (q ≠ "" ∧ pyStrip q ≠ "") := by simp [hq]
  constructor
  · simp only [list_residents, if_neg hbounds, if_neg hcond]
  · simp only [list_residents, if_neg hbounds, if_neg hcond]

/-- Witness for C10: a whitespace query over a one-resident table returns
that resident and `total = 1`, exactly like the query-less call. -/
theorem blank_query_applies_no_filter_witness :
    list_residents
        [⟨7, "John", "Smith", none, none, none, none, none, none, none, none, none, 0, 0⟩]
        (some "   ") 1 20 .last_name .asc =
      list_residents
        [⟨7, "John", "Smith", none, none, none, none, none, none, none, none, none, 0, 0⟩]
        none 1 20 .last_name .asc ∧
    list_residents
        [⟨7, "John", "Smith", none, none, none, none, none, none, none, none, none, 0, 0⟩]
        (some "   ") 1 20 .last_name .asc =
      .ok ⟨((sortResidents (residentLE .last_name .asc)
               ([⟨7, "John", "Smith", none, none, none, none, none, none, none, none, none,
                  0, 0⟩] : List Resident)).drop
              ((1 - 1) * 20)).take 20,
           1, 1, 20⟩ :=
  blank_query_applies_no_filter
    [⟨7, "John", "Smith", none, none, none, none, none, none, none, none, none, 0, 0⟩]
    "   " 1 20 .last_name .asc (by decide) (by decide) (by decide) (by decide)

/-- Unfolding: a leading `%` matches iff some suffix matches the rest of
the pattern. -/
theorem likeMatch_pct_cons (ps : List Char) (s : List Char) :
    likeMatch ('%' :: ps) s = s.tails.any (fun t => likeMatch ps t) := by
  rw [likeMatch.eq_def]
  simp

/-- Unfolding: the empty pattern matches only the empty string. -/
theorem likeMatch_nil (s : List Char) : likeMatch [] s = s.isEmpty := by
  rw [likeMatch.eq_def]

/-- Unfolding: a literal (non-wildcard, non-escape) pattern character
consumes one equal input character. -/
theorem likeMatch_lit_cons (p : Char) (ps : List Char)
    (hp1 : ¬ p = '%') (hp2 : ¬ p = '_') (hp3 : ¬ p = '\\') (c : Char) (s : List Char) :
    likeMatch (p :: ps) (c :: s) = ((p == c) && likeMatch ps s) := by
  rw [likeMatch.eq_def]
  simp [hp1, hp2, hp3]

/-- Unfolding: a non-`%` pattern character never matches the end of
input. -/
theorem likeMatch_lit_nil (p : Char) (ps : List Char) (hp1 : ¬ p = '%') :
    likeMatch (p :: ps) [] = false := by
  by_cases hp2 : p = '\\'
  · rw [likeMatch.eq_def]
    cases ps <;> simp [hp1, hp2]
  · rw [likeMatch.eq_def]
    simp [hp1, hp2]

/-- A literal (wildcard-free) pattern with one trailing `%` matches
exactly the strings it is a prefix of. -/
theorem likeMatch_append_pct (ps : List Char)
    (h : ∀ c ∈ ps, ¬ c = '%' ∧ ¬ c = '_' ∧ ¬ c = '\\') (t : List Char) :
    likeMatch (ps ++ ['%']) t = ps.isPrefixOf t := by
  induction ps generalizing t with
  | nil =>
    have hnil : ([] : List Char) ∈ t.tails := (List.mem_tails _ _).mpr List.nil_suffix
    rw [List.nil_append, likeMatch_pct_cons]
    have hemp : (fun u => likeMatch ([] : List Char) u) = (fun u => u.isEmpty) :=
      funext fun u => likeMatch_nil u
    rw [hemp]
    have : t.tails.any (fun u => u.isEmpty) = true := by
      rw [List.any_eq_true]
      exact ⟨[], hnil, rfl⟩
    rw [this]
    cases t <;> rfl
  | cons p ps ih =>
    have hp := h p (List.mem_cons_self p ps)
    have hps : ∀ c ∈ ps, ¬ c = '%' ∧ ¬ c = '_' ∧ ¬ c = '\\' :=
      fun c hc => h c (List.mem_cons_of_mem _ hc)
    cases t with
    | nil =>
      rw [List.cons_append, likeMatch_lit_nil _ _ hp.1]
      rfl
    | cons c t' =>
      rw [List.cons_append, likeMatch_lit_cons _ _ hp.1 hp.2.1 hp.2.2]
      show (p == c && likeMatch (ps ++ ['%']) t') = (p == c && ps.isPrefixOf t')
      rw [ih hps t']

/-- `%pattern%` for a wildcard-free `pattern` is exactly the substring
test the spec describes. -/
theorem likeMatch_wrapped_eq_substrContains (q : List Char)
    (h : ∀ c ∈ q, ¬ c = '%' ∧ ¬ c = '_' ∧ ¬ c = '\\') (s : List Char) :
    likeMatch ('%' :: (q ++ ['%'])) s = substrContains q s := by
  rw [likeMatch_pct_cons]
  simp only [substrContains]
  congr 1
  funext t
  exact likeMatch_append_pct q h t

theorem lowerChars_append (a b : String) :
    lowerChars (a ++ b) = lowerChars a ++ lowerChars b := by
  simp [lowerChars, String.data_append]

/-- For a query free of wildcards and of the escape character that carries
no surrounding whitespace, the implemented `ILIKE`-based match is exactly
the spec's case-insensitive substring inclusion, field by field. -/
theorem residentMatches_eq_specMatches (q : String)
    (hw : ∀ c ∈ lowerChars q, ¬ c = '%' ∧ ¬ c = '_' ∧ ¬ c = '\\')
    (hstrip : pyStrip q = q) (r : Resident) :
    residentMatches q r = specMatches q r := by
  simp only [residentMatches, specMatches, hstrip]
  congr 1
  funext f
  match f with
  | none => rfl
  | some s =>
    simp only [ilikeOpt]
    rw [lowerChars_append, lowerChars_append]
    have hpct : lowerChars "%" = ['%'] := rfl
    rw [hpct]
    rw [show (['%'] ++ lowerChars q) ++ ['%'] = '%' :: (lowerChars q ++ ['%']) by simp]
    exact likeMatch_wrapped_eq_substrContains (lowerChars q) hw (lowerChars s)

/-- **C7 counterexample.** The handler interpolates the query into the
`ILIKE` pattern unescaped, so `_` and `%` act as wildcards: the query
`"_"` includes the resident `Smith` (total 1, item returned) although
`"_"` is not a case-insensitive substring of any of its fields — the
claim's "included iff substring" fails. -/
theorem wildcard_query_included_without_substring :
    list_residents
        [⟨7, "John", "Smith", none, none, none, none, none, none, none, none, none, 0, 0⟩]
        (some "_") 1 20 .last_name .asc =
      .ok ⟨[⟨7, "John", "Smith", none, none, none, none, none, none, none, none, none,
            0, 0⟩], 1, 1, 20⟩ ∧
    specMatches "_"
      ⟨7, "John", "Smith", none, none, none, none, none, none, none, none, none, 0, 0⟩ =
      false := by
  refine ⟨by decide, by decide⟩

/-- **C7 amended.** For query strings free of the SQL wildcards `%` and
`_` and of the escape character `\\` (and without surrounding whitespace,
which the handler strips), a resident matches iff the query is a
case-insensitive substring of at least one of the eight searched
name/address/contact fields; the response's `total` is the full match
count independent of `page`/`page_size`; the returned items number at most
`page_size`; and out-of-range `page`/`page_size` (page < 1 or page_size
outside 1..100) fail request validation. For queries carrying `%`, `_` or
`\\` the inclusion predicate is PostgreSQL `ILIKE` pattern matching
instead (see the counterexample). -/
theorem list_residents_substring_semantics
    (residents : List Resident) (q : String) (page page_size : Nat)
    (sb : SortBy) (sd : SortDir)
    (hw : ∀ c ∈ lowerChars q, ¬ c = '%' ∧ ¬ c = '_' ∧ ¬ c = '\\')
    (hstrip : pyStrip q = q) (hne : q ≠ "")
    (hpage : 1 ≤ page) (hps1 : 1 ≤ page_size) (hps2 : page_size ≤ 100) :
    (∀ r, residentMatches q r = specMatches q r) ∧
    list_residents residents (some q) page page_size sb sd =
      .ok ⟨((sortResidents (residentLE sb sd) (residents.filter (specMatches q))).drop
              ((page - 1) * page_size)).take page_size,
           (residents.filter (specMatches q)).length, page, page_size⟩ ∧
    (((sortResidents (residentLE sb sd) (residents.filter (specMatches q))).drop
        ((page - 1) * page_size)).take page_size).length ≤ page_size ∧
    (∀ p psz, (p < 1 ∨ psz < 1 ∨ 100 < psz) →
       list_residents residents (some q) p psz sb sd = .error .requestValidation) := by
  have hmatch : residentMatches q = specMatches q :=
    funext (residentMatches_eq_specMatches q hw hstrip)
  have hbounds : ¬ (page < 1 ∨ page_size < 1 ∨ 100 < page_size) := by omega
  have hcond : q ≠ "" ∧ pyStrip q ≠ "" := ⟨hne, by rw [hstrip]; exact hne⟩
  refine ⟨fun r => by rw [hmatch], ?_, ?_, ?_⟩
  · simp only [list_residents, if_neg hbounds, if_pos hcond, hmatch]
  · rw [List.length_take]
    exact inf_le_left
  · intro p psz hbad
    simp only [list_residents, if_pos hbad]

/-- Witness for C7 amended: querying `smith` over a one-resident table
whose `last_name` is `Smith` matches case-insensitively, with `total = 1`
and the row in the items. -/
theorem list_residents_substring_semantics_witness :
    residentMatches "smith"
        ⟨7, "John", "Smith", none, none, none, none, none, none, none, none, none, 0, 0⟩ =
      specMatches "smith"
        ⟨7, "John", "Smith", none, none, none, none, none, none, none, none, none, 0, 0⟩ ∧
    list_residents
        [⟨7, "John", "Smith", none, none, none, none, none, none, none, none, none, 0, 0⟩]
        (some "smith") 1 20 .last_name .asc =
      .ok ⟨((sortResidents (residentLE .last_name .asc)
              (([⟨7, "John", "Smith", none, none, none, none, none, none, none, none,
                  none, 0, 0⟩] : List Resident).filter (specMatches "smith"))).drop
              ((1 - 1) * 20)).take 20,
           (([⟨7, "John", "Smith", none, none, none, none, none, none, none, none, none,
              0, 0⟩] : List Resident).filter (specMatches "smith")).length, 1, 20⟩ :=
  ⟨(list_residents_substring_semantics
      [⟨7, "John", "Smith", none, none, none, none, none, none, none, none, none, 0, 0⟩]
      "smith" 1 20 .last_name .asc (by decide) (by decide) (by decide) (by decide)
      (by decide) (by decide)).1
     ⟨7, "John", "Smith", none, none, none, none, none, none, none, none, none, 0, 0⟩,
   (list_residents_substring_semantics
      [⟨7, "John", "Smith", none, none, none, none, none, none, none, none, none, 0, 0⟩]
      "smith" 1 20 .last_name .asc (by decide) (by decide) (by decide) (by decide)
      (by decide) (by decide)).2.1⟩

/-- Computation of a fully-validated `refresh` up to the rotated-row
INSERT's primary-key check. -/
theorem refresh_master
    (cfg : Settings) (db : AuthDb) (now : Int) (tok : Jwt) (rt : RefreshTokenRow)
    (p : JwtPayload) (uid : Nat) (user : User)
    (hfind : db.refresh_tokens.filter (fun r => r.token == tok) = [rt])
    (hexp : now < rt.expires_at)
    (hdec : decode_token cfg now tok = .ok p)
    (htyp : p.typ = "refresh")
    (hsub : p.sub = some uid)
    (huser : db.users.find? (fun u => u.id == uid) = some user) :
    refresh cfg db now tok =
      if pkPresent db.refresh_tokens user.id (create_refresh_token cfg now user.id).1 then
        (.error .internal, db)
      else
        (.ok ⟨(create_access_token cfg now user.id user.role).1,
              (create_refresh_token cfg now user.id).1, "bearer",
              (create_access_token cfg now user.id user.role).2, toUserPublic user⟩,
         { db with refresh_tokens :=
             db.refresh_tokens.erase rt ++
               [⟨user.id, (create_refresh_token cfg now user.id).1,
                 (create_refresh_token cfg now user.id).2, now⟩] }) := by
  have hexp' : ¬ (rt.expires_at ≤ now) := by omega
  simp only [refresh, hfind, scalarOneOrNone, if_neg hexp', hdec, htyp, hsub, huser,
    ne_eq, not_true_eq_false, if_false]

/-- **C1.** For a refresh token found in the store with an unexpired row,
a valid signature, claim type `refresh` and a subject resolving to an
existing user, a successful Refresh replaces exactly the old row with
exactly one rotated row in one commit (row count unchanged), and any later
Refresh with the original token string fails 401 "Invalid refresh token":
the token rotates at most once. `hrow` is the store invariant that a row's
`user_id` equals its token's subject (all rows created through the API
satisfy it); without it the success hypothesis could not rule out the
rotated token colliding with a foreign row. -/
theorem refresh_rotation_single_use
    (cfg : Settings) (db : AuthDb) (now : Int) (tok : Jwt) (rt : RefreshTokenRow)
    (p : JwtPayload) (uid : Nat) (user : User)
    (hfind : db.refresh_tokens.filter (fun r => r.token == tok) = [rt])
    (hexp : now < rt.expires_at)
    (hdec : decode_token cfg now tok = .ok p)
    (htyp : p.typ = "refresh")
    (hsub : p.sub = some uid)
    (hrow : rt.user_id = uid)
    (huser : db.users.find? (fun u => u.id == uid) = some user)
    (hsucc : ((refresh cfg db now tok).1).isOk = true) :
    (refresh cfg db now tok).2.refresh_tokens =
      db.refresh_tokens.erase rt ++
        [⟨user.id, (create_refresh_token cfg now user.id).1,
          (create_refresh_token cfg now user.id).2, now⟩] ∧
    (refresh cfg db now tok).2.refresh_tokens.length = db.refresh_tokens.length ∧
    (refresh cfg db now tok).1 =
      .ok ⟨(create_access_token cfg now user.id user.role).1,
           (create_refresh_token cfg now user.id).1, "bearer",
           (create_access_token cfg now user.id user.role).2, toUserPublic user⟩ ∧
    (∀ later : Int, (refresh cfg (refresh cfg db now tok).2 later tok).1 =
       .error (.unauthorized "Invalid refresh token")) := by
  have hmain := refresh_master cfg db now tok rt p uid user hfind hexp hdec htyp hsub huser
  have huid : user.id = uid := by
    have := List.find?_some huser
    simpa [beq_iff_eq] using this
  have hmem : rt ∈ db.refresh_tokens := (mem_of_filter_eq_single hfind).1
  have hrtok : rt.token = tok := by
    have := (mem_of_filter_eq_single hfind).2
    simpa [beq_iff_eq] using this
  cases hpk : pkPresent db.refresh_tokens user.id (create_refresh_token cfg now user.id).1 with
  | true =>
    rw [hmain, hpk] at hsucc
    simp [Except.isOk, Except.toBool] at hsucc
  | false =>
    rw [hpk] at hmain
    simp only [if_false, Bool.false_eq_true] at hmain
    have hne : ¬ ((create_refresh_token cfg now user.id).1 = tok) := by
      intro heq
      have hauto : pkPresent db.refresh_tokens user.id
          (create_refresh_token cfg now user.id).1 = true := by
        unfold pkPresent
        rw [List.any_eq_true]
        refine ⟨rt, hmem, ?_⟩
        rw [hrtok, heq, hrow, huid]
        simp
      rw [hauto] at hpk
      cases hpk
    have hfilter2 :
        ((db.refresh_tokens.erase rt) ++
          ([⟨user.id, (create_refresh_token cfg now user.id).1,
             (create_refresh_token cfg now user.id).2, now⟩] : List RefreshTokenRow)).filter
          (fun r => r.token == tok) = [] := by
      rw [List.filter_append, filter_erase_eq_nil hfind]
      simp [hne]
    refine ⟨by rw [hmain], ?_, by rw [hmain], ?_⟩
    · rw [hmain]
      simp only [List.length_append, List.length_erase_of_mem hmem, List.length_cons,
        List.length_nil]
      have : 0 < db.refresh_tokens.length := List.length_pos_of_mem hmem
      omega
    · intro later
      rw [hmain]
      simp only [refresh, hfilter2, scalarOneOrNone]

/-- Witness for C1: a token issued at time 100 and rotated at time 200
leaves exactly the one rotated row, returns the fresh pair, and is
rejected with 401 when replayed at time 300. -/
theorem refresh_rotation_single_use_witness :
    (refresh defaultSettings
        ⟨[⟨1, "a@x.com", hash_password "longpass1", .user, 0⟩],
         [⟨1, (create_refresh_token defaultSettings 100 1).1,
           (create_refresh_token defaultSettings 100 1).2, 100⟩]⟩
        200 (create_refresh_token defaultSettings 100 1).1).2.refresh_tokens =
      [⟨1, (create_refresh_token defaultSettings 200 1).1,
        (create_refresh_token defaultSettings 200 1).2, 200⟩] ∧
    (refresh defaultSettings
        ⟨[⟨1, "a@x.com", hash_password "longpass1", .user, 0⟩],
         [⟨1, (create_refresh_token defaultSettings 100 1).1,
           (create_refresh_token defaultSettings 100 1).2, 100⟩]⟩
        200 (create_refresh_token defaultSettings 100 1).1).2.refresh_tokens.length = 1 ∧
    (refresh defaultSettings
        ⟨[⟨1, "a@x.com", hash_password "longpass1", .user, 0⟩],
         [⟨1, (create_refresh_token defaultSettings 100 1).1,
           (create_refresh_token defaultSettings 100 1).2, 100⟩]⟩
        200 (create_refresh_token defaultSettings 100 1).1).1 =
      .ok ⟨(create_access_token defaultSettings 200 1 .user).1,
           (create_refresh_token defaultSettings 200 1).1, "bearer",
           (create_access_token defaultSettings 200 1 .user).2,
           ⟨1, "a@x.com", .user, 0⟩⟩ ∧
    (refresh defaultSettings
        (refresh defaultSettings
            ⟨[⟨1, "a@x.com", hash_password "longpass1", .user, 0⟩],
             [⟨1, (create_refresh_token defaultSettings 100 1).1,
               (create_refresh_token defaultSettings 100 1).2, 100⟩]⟩
            200 (create_refresh_token defaultSettings 100 1).1).2
        300 (create_refresh_token defaultSettings 100 1).1).1 =
      .error (.unauthorized "Invalid refresh token") := by
  have h := refresh_rotation_single_use defaultSettings
    ⟨[⟨1, "a@x.com", hash_password "longpass1", .user, 0⟩],
     [⟨1, (create_refresh_token defaultSettings 100 1).1,
       (create_refresh_token defaultSettings 100 1).2, 100⟩]⟩
    200 (create_refresh_token defaultSettings 100 1).1
    ⟨1, (create_refresh_token defaultSettings 100 1).1,
      (create_refresh_token defaultSettings 100 1).2, 100⟩
    ⟨"resident-directory", "resident-directory-frontend", some 1, none, "refresh",
      100, 100 + 30 * 86400⟩
    1 ⟨1, "a@x.com", hash_password "longpass1", .user, 0⟩
    (by decide) (by decide) (by decide) (by decide) (by decide) (by decide) (by decide)
    (by decide)
  exact ⟨h.1, h.2.1, h.2.2.1, h.2.2.2 300⟩

end ResidentDirectory
